import Mathlib

set_option maxHeartbeats 1000000

/-!
Shallow embedding of the AiQuiz repository: the three variants of the
generate-questions POST route handler and the Quiz component state logic,
with theorems checking the specification claims against them.
-/

/-- JSON values, as produced by the platform JSON parser. -/
inductive Json where
  | null
  | bool (b : Bool)
  | num (n : Int)
  | str (s : String)
  | arr (elems : List Json)
  | obj (fields : List (String × Json))

/-- Property access on a parsed JSON value: a key lookup on an object,
undefined (modelled as none) on any non-object value. -/
def getField : Json → String → Option Json
  | .obj fields, k => fields.lookup k
  | _, _ => none

/-- The question record shape shared by the route handlers and the client. -/
structure Question where
  question : String
  options : List String
  correctAnswer : String
deriving DecidableEq, Repr

/-- The Question invariant from the data model: the options list has 4
distinct entries and correctAnswer is value-equal to exactly one of them. -/
def QuestionInvariant (q : Question) : Prop :=
  q.options.length = 4 ∧ q.options.Nodup ∧ q.options.count q.correctAnswer = 1

/-- Encoding of a hard-coded Question literal as the JSON object the handler
serialises into its response. -/
def questionToJson (q : Question) : Json :=
  .obj [("question", .str q.question), ("options", .arr (q.options.map .str)),
        ("correctAnswer", .str q.correctAnswer)]

/-- Reads a list of JSON values as a list of strings, failing if any element
is not a string. -/
def allStrings : List Json → Option (List String)
  | [] => some []
  | .str s :: rest => (allStrings rest).map (fun os => s :: os)
  | _ => none

/-- Decodes a JSON value into a Question record when it has the expected
shape. -/
def jsonToQuestion (j : Json) : Option Question :=
  match getField j "question", getField j "options", getField j "correctAnswer" with
  | some (.str q), some (.arr opts), some (.str ca) =>
      (allStrings opts).map (fun os => { question := q, options := os, correctAnswer := ca })
  | _, _, _ => none

/-- A JSON value in a response questions array satisfies the Question
invariant when it decodes to a Question record that does. -/
def JsonQuestionOK (j : Json) : Prop :=
  match jsonToQuestion j with
  | some q => QuestionInvariant q
  | none => False

/-- Character sequence of the long code-fence marker matched first by the
regex alternation in the handlers. -/
def fenceJson : List Char := "```json".toList

/-- Character sequence of the short code-fence marker. -/
def fenceBare : List Char := "```".toList

/-- Left-to-right scan deleting every occurrence of a code-fence marker,
trying the longer marker first at each position, exactly as the global regex
alternation in the handlers does. The fuel argument only forces structural
recursion; every step consumes at least one character, so fuel equal to the
length of the list is never exhausted. -/
def stripFencesAux : Nat → List Char → List Char
  | 0, _ => []
  | _, [] => []
  | fuel + 1, c :: cs =>
    if fenceJson.isPrefixOf (c :: cs) then stripFencesAux fuel (cs.drop 6)
    else if fenceBare.isPrefixOf (c :: cs) then stripFencesAux fuel (cs.drop 2)
    else c :: stripFencesAux fuel cs

/-- Deletion of all code-fence markers from a character list. -/
def stripFences (l : List Char) : List Char :=
  stripFencesAux l.length l

/-- Whitespace trimming from both ends of a character list, the semantics of
the trim call in the handlers. -/
def trimChars (l : List Char) : List Char :=
  ((l.dropWhile Char.isWhitespace).reverse.dropWhile Char.isWhitespace).reverse

/-- Cleaning step the handlers apply to raw generated text before JSON
parsing: remove code-fence markers globally, then trim whitespace. -/
def cleanContent (s : String) : String :=
  String.mk (trimChars (stripFences s.toList))

/-- Fields the handlers destructure from a successfully parsed request
body. -/
structure RequestBody where
  subject : Option String
  difficulty : Option String
  numberOfQuestions : Option Nat
deriving DecidableEq, Repr

/-- JS truthiness test for an optional string field: falsy when the field is
absent or the empty string. -/
def isFalsy : Option String → Bool
  | none => true
  | some s => s = ""

/-- Destructuring default for numberOfQuestions: 10 applies only when the
field is absent from the body. -/
def requestedCount (b : RequestBody) : Nat :=
  b.numberOfQuestions.getD 10

/-- Observable parts of the HTTP response a handler builds. -/
structure ApiResponse where
  status : Nat
  error : Option String
  questions : Option (List Json)
  source : Option String

/-- Extraction of the questions array from a parsed generation response:
the field must be present and be a non-empty array, otherwise the stage
throws (missing or falsy field defaults to an empty list, which fails the
length check; a non-array truthy value fails the isArray check). -/
def questionsArray (j : Json) : Option (List Json) :=
  match getField j "questions" with
  | some (.arr qs) => if qs.isEmpty then none else some qs
  | _ => none

/-- One Gemini generation stage. parse is the platform JSON.parse passed as
a parameter (none models a parse exception); gemini is the raw text outcome
of the external call (none models the call throwing). The stage succeeds
exactly when the call returns non-empty text whose cleaned form parses to a
value with a non-empty questions array. -/
def geminiStage (parse : String → Option Json) (gemini : Option String) :
    Option (List Json) :=
  match gemini with
  | none => none
  | some content =>
    if content = "" then none
    else
      match parse (cleanContent content) with
      | none => none
      | some j => questionsArray j

/-- The hard-coded fallback question list of route.ts (identical in the
two-stage variant). -/
def fallbackQuestions : List Question :=
  [ { question := "What is the chemical symbol for gold?",
      options := ["Au", "Ag", "Fe", "Cu"], correctAnswer := "Au" },
    { question := "Which planet is known as the Red Planet?",
      options := ["Mars", "Venus", "Jupiter", "Mercury"], correctAnswer := "Mars" },
    { question := "What is the process by which plants make their own food using sunlight?",
      options := ["Photosynthesis", "Respiration", "Transpiration", "Germination"],
      correctAnswer := "Photosynthesis" },
    { question := "What is the largest organ in the human body?",
      options := ["Skin", "Liver", "Heart", "Brain"], correctAnswer := "Skin" },
    { question := "Which of these is NOT a state of matter?",
      options := ["Energy", "Solid", "Liquid", "Gas"], correctAnswer := "Energy" } ]

namespace GeminiRoute

/-- POST handler of src/app/api/generate-questions/route.ts. A body of none
models a request whose body fails JSON parsing, which lands in the outer
catch. On a valid body it validates subject and difficulty, runs the single
Gemini stage, and on stage failure serves the fallback list truncated to
min of the requested count and the list length. -/
def POST (parse : String → Option Json) (gemini : Option String)
    (body : Option RequestBody) : ApiResponse :=
  match body with
  | none =>
      { status := 200, error := none,
        questions := some ((fallbackQuestions.take 5).map questionToJson),
        source := some "error-fallback" }
  | some b =>
    if isFalsy b.subject || isFalsy b.difficulty then
      { status := 400, error := some "Subject and difficulty are required",
        questions := none, source := none }
    else
      match geminiStage parse gemini with
      | some qs =>
          { status := 200, error := none, questions := some qs, source := none }
      | none =>
          { status := 200, error := none,
            questions := some ((fallbackQuestions.take
              (min (requestedCount b) fallbackQuestions.length)).map questionToJson),
            source := some "fallback" }

end GeminiRoute

namespace MockRoute

/-- The hard-coded per-subject question table of the mock-data route
variant. -/
def mockData : List (String × List Question) :=
  [ ("Mathematics",
     [ { question := "What is the value of π (pi) to two decimal places?",
         options := ["3.14", "3.16", "3.12", "3.18"], correctAnswer := "3.14" },
       { question := "Solve for x: 2x + 5 = 13",
         options := ["x = 4", "x = 5", "x = 3", "x = 6"], correctAnswer := "x = 4" },
       { question := "What is the area of a circle with radius 5 units?",
         options := ["25π square units", "10π square units", "5π square units", "15π square units"],
         correctAnswer := "25π square units" },
       { question := "What is the square root of 144?",
         options := ["12", "14", "10", "16"], correctAnswer := "12" },
       { question := "If a triangle has angles measuring 30°, 60°, and 90°, what type of triangle is it?",
         options := ["Right triangle", "Equilateral triangle", "Isosceles triangle", "Scalene triangle"],
         correctAnswer := "Right triangle" } ]),
    ("Science",
     [ { question := "What is the chemical symbol for gold?",
         options := ["Au", "Ag", "Fe", "Cu"], correctAnswer := "Au" },
       { question := "Which planet is known as the Red Planet?",
         options := ["Mars", "Venus", "Jupiter", "Mercury"], correctAnswer := "Mars" },
       { question := "What is the process by which plants make their own food using sunlight?",
         options := ["Photosynthesis", "Respiration", "Transpiration", "Germination"],
         correctAnswer := "Photosynthesis" },
       { question := "What is the largest organ in the human body?",
         options := ["Skin", "Liver", "Heart", "Brain"], correctAnswer := "Skin" },
       { question := "Which of these is NOT a state of matter?",
         options := ["Energy", "Solid", "Liquid", "Gas"], correctAnswer := "Energy" } ]),
    ("History",
     [ { question := "Who was the first President of the United States?",
         options := ["George Washington", "Thomas Jefferson", "Abraham Lincoln", "John Adams"],
         correctAnswer := "George Washington" },
       { question := "In which year did World War II end?",
         options := ["1945", "1939", "1942", "1950"], correctAnswer := "1945" },
       { question := "Which ancient civilization built the pyramids at Giza?",
         options := ["Ancient Egyptians", "Ancient Greeks", "Romans", "Mayans"],
         correctAnswer := "Ancient Egyptians" },
       { question := "Who wrote the Declaration of Independence?",
         options := ["Thomas Jefferson", "George Washington", "Benjamin Franklin", "John Adams"],
         correctAnswer := "Thomas Jefferson" },
       { question := "Which event marked the beginning of World War I?",
         options := ["Assassination of Archduke Franz Ferdinand", "The invasion of Poland", "The sinking of the Lusitania", "The Treaty of Versailles"],
         correctAnswer := "Assassination of Archduke Franz Ferdinand" } ]),
    ("General Knowledge",
     [ { question := "Which is the largest ocean on Earth?",
         options := ["Pacific Ocean", "Atlantic Ocean", "Indian Ocean", "Arctic Ocean"],
         correctAnswer := "Pacific Ocean" },
       { question := "What is the capital of Japan?",
         options := ["Tokyo", "Beijing", "Seoul", "Bangkok"], correctAnswer := "Tokyo" },
       { question := "Who painted the Mona Lisa?",
         options := ["Leonardo da Vinci", "Pablo Picasso", "Vincent van Gogh", "Michelangelo"],
         correctAnswer := "Leonardo da Vinci" },
       { question := "Which planet is closest to the Sun?",
         options := ["Mercury", "Venus", "Earth", "Mars"], correctAnswer := "Mercury" },
       { question := "What is the tallest mountain in the world?",
         options := ["Mount Everest", "K2", "Kangchenjunga", "Makalu"],
         correctAnswer := "Mount Everest" } ]),
    ("Machine Learning",
     [ { question := "What is the process of finding patterns in data called?",
         options := ["Data Mining", "Data Cleaning", "Data Visualization", "Data Collection"],
         correctAnswer := "Data Mining" },
       { question := "Which algorithm is used for classification problems?",
         options := ["Decision Tree", "K-means", "Linear Regression", "Principal Component Analysis"],
         correctAnswer := "Decision Tree" },
       { question := "What does CNN stand for in deep learning?",
         options := ["Convolutional Neural Network", "Computational Neural Network", "Complex Neural Network", "Continuous Neural Network"],
         correctAnswer := "Convolutional Neural Network" },
       { question := "Which of these is a supervised learning algorithm?",
         options := ["Support Vector Machine", "K-means clustering", "Apriori algorithm", "Principal Component Analysis"],
         correctAnswer := "Support Vector Machine" },
       { question := "What is the goal of the backpropagation algorithm?",
         options := ["To update weights in a neural network", "To cluster data points", "To reduce dimensionality", "To generate new data samples"],
         correctAnswer := "To update weights in a neural network" } ]) ]

/-- Subject keyed selection of the fallback table: the dedicated set when
the subject has one, otherwise the General Knowledge set. -/
def subjectQuestions (subject : String) : List Question :=
  match mockData.lookup subject with
  | some qs => qs
  | none => (mockData.lookup "General Knowledge").getD []

/-- POST handler of the mock-data route variant. A body of none models a
request body that fails JSON parsing and lands in the outer catch, which
serves the first five General Knowledge questions. On Gemini stage failure
it serves the subject keyed table truncated to the requested count. -/
def POST (parse : String → Option Json) (gemini : Option String)
    (body : Option RequestBody) : ApiResponse :=
  match body with
  | none =>
      { status := 200, error := none,
        questions := some ((((mockData.lookup "General Knowledge").getD []).take 5).map questionToJson),
        source := some "fallback" }
  | some b =>
    if isFalsy b.subject || isFalsy b.difficulty then
      { status := 400, error := some "Subject and difficulty are required",
        questions := none, source := none }
    else
      match geminiStage parse gemini with
      | some qs =>
          { status := 200, error := none, questions := some qs, source := none }
      | none =>
          { status := 200, error := none,
            questions := some (((subjectQuestions (b.subject.getD "")).take
              (requestedCount b)).map questionToJson),
            source := some "mock" }

end MockRoute

/-- One OpenAI generation stage of the two-stage route variant: the raw
content is parsed as JSON directly, with no code-fence cleaning, and the
stage succeeds exactly when the call returns non-empty text parsing to a
value with a non-empty questions array. -/
def openaiStage (parse : String → Option Json) (openai : Option String) :
    Option (List Json) :=
  match openai with
  | none => none
  | some content =>
    if content = "" then none
    else
      match parse content with
      | none => none
      | some j => questionsArray j

namespace DualRoute

/-- POST handler of the two-stage route variant: OpenAI first, Gemini on
OpenAI failure, the static fallback list truncated to min of the count and
its length when both stages fail, and the outer catch for an unparseable
body. Each success path tags the response with the source that produced
it. -/
def POST (parse : String → Option Json) (openai gemini : Option String)
    (body : Option RequestBody) : ApiResponse :=
  match body with
  | none =>
      { status := 200, error := none,
        questions := some ((fallbackQuestions.take 5).map questionToJson),
        source := some "error-fallback" }
  | some b =>
    if isFalsy b.subject || isFalsy b.difficulty then
      { status := 400, error := some "Subject and difficulty are required",
        questions := none, source := none }
    else
      match openaiStage parse openai with
      | some qs =>
          { status := 200, error := none, questions := some qs, source := some "openai" }
      | none =>
          match geminiStage parse gemini with
          | some qs =>
              { status := 200, error := none, questions := some qs, source := some "gemini" }
          | none =>
              { status := 200, error := none,
                questions := some ((fallbackQuestions.take
                  (min (requestedCount b) fallbackQuestions.length)).map questionToJson),
                source := some "fallback" }

end DualRoute

/-- Per-question time limit of the Quiz component, in seconds. -/
def TIME_LIMIT : Nat := 60

/-- Local state of the Quiz component that the claims concern: the fetched
question list, the active question index, the selected option index (-1 for
unanswered, as in the source), the per-question elapsed-seconds counter, the
running tally and the finished flag. -/
structure QuizState where
  questions : List Question
  activeQuestion : Nat
  selectedAnswerIndex : Int
  timePassed : Nat
  correctAnswers : Nat
  wrongAnswers : Nat
  secondsUsed : Nat
  quizFinished : Bool
deriving DecidableEq, Repr

/-- State of the Quiz component right after the question list has been
fetched. -/
def initQuiz (qs : List Question) : QuizState :=
  { questions := qs, activeQuestion := 0, selectedAnswerIndex := -1,
    timePassed := 0, correctAnswers := 0, wrongAnswers := 0,
    secondsUsed := 0, quizFinished := false }

/-- Update stored by the interval callback once per second: the counter is
clamped back to TIME_LIMIT only once it is strictly above it, so it can
reach TIME_LIMIT + 1. -/
def tickPhase (s : QuizState) : QuizState :=
  { s with timePassed :=
      if s.timePassed > TIME_LIMIT then TIME_LIMIT else s.timePassed + 1 }

/-- handleNextQuestion of the Quiz component: reset the selected answer,
finish the quiz when the active question was the last one, otherwise advance
the index by one and reset the elapsed counter. -/
def handleNextQuestion (s : QuizState) : QuizState :=
  let s₁ := { s with selectedAnswerIndex := -1 }
  if s₁.activeQuestion + 1 ≥ s₁.questions.length then
    { s₁ with quizFinished := true }
  else
    { s₁ with activeQuestion := s₁.activeQuestion + 1, timePassed := 0 }

/-- Effect the component runs on every change of timePassed: once the
counter is strictly above the limit, an unanswered question is scored wrong
with TIME_LIMIT seconds charged, then the component advances and the counter
is reset to 0. The guard mirrors the early return when the quiz is finished
or no questions are loaded. -/
def timeoutCheck (s : QuizState) : QuizState :=
  if s.quizFinished || s.questions.isEmpty then s
  else if s.timePassed > TIME_LIMIT then
    let s₁ :=
      if s.selectedAnswerIndex = -1 then
        { s with secondsUsed := s.secondsUsed + TIME_LIMIT,
                 wrongAnswers := s.wrongAnswers + 1 }
      else s
    { handleNextQuestion s₁ with timePassed := 0 }
  else s

/-- One firing of the per-second interval, as observed after React applies
the stored counter update and runs the timeout effect on it. -/
def tickStep (s : QuizState) : QuizState :=
  timeoutCheck (tickPhase s)

/-- handleSelectAnswer of the Quiz component: record the selected index,
compare the selected option text with correctAnswer by exact equality, add
the current elapsed seconds to the tally and bump the matching counter. An
out-of-range index compares undefined against the answer and scores
wrong. -/
def handleSelectAnswer (s : QuizState) (answerIndex : Nat) : QuizState :=
  match s.questions[s.activeQuestion]? with
  | none => s
  | some q =>
    if q.options[answerIndex]? = some q.correctAnswer then
      { s with selectedAnswerIndex := (answerIndex : Int),
               secondsUsed := s.secondsUsed + s.timePassed,
               correctAnswers := s.correctAnswers + 1 }
    else
      { s with selectedAnswerIndex := (answerIndex : Int),
               secondsUsed := s.secondsUsed + s.timePassed,
               wrongAnswers := s.wrongAnswers + 1 }

/-- Events the active quiz view can undergo. Ticks happen only while the
timer is live: selecting an answer clears the interval, so a tick requires
an unanswered question, and the timer effect bails out on a finished quiz or
an empty question list. The Next button is rendered only once an option is
selected. Modelled from the spec: the OptionList component is not among the
sources; per the spec the user may select exactly one option per question,
so a selection event requires that no option is selected yet, and the render
site indexes the question list at the active index, so a selection happens
only at a valid index. -/
inductive QuizStep : QuizState → QuizState → Prop where
  | tick (s : QuizState) (hf : s.quizFinished = false)
      (hq : s.questions ≠ []) (hsel : s.selectedAnswerIndex = -1) :
      QuizStep s (tickStep s)
  | select (s : QuizState) (i : Nat) (hf : s.quizFinished = false)
      (hsel : s.selectedAnswerIndex = -1)
      (hq : s.activeQuestion < s.questions.length) :
      QuizStep s (handleSelectAnswer s i)
  | next (s : QuizState) (hf : s.quizFinished = false)
      (hsel : s.selectedAnswerIndex ≠ -1) :
      QuizStep s (handleNextQuestion s)

/-- Iterated interval firings from a given state. -/
def ticksFrom (s : QuizState) : Nat → QuizState
  | 0 => s
  | n + 1 => tickStep (ticksFrom s n)

/-- Inductive invariant of the quiz session: the question list is fixed, the
settled counter never exceeds the limit, the active index stays in range
while the quiz runs, and the tally counts exactly the questions answered so
far, with at most TIME_LIMIT seconds charged per answered question. -/
def QuizInv (qs : List Question) (s : QuizState) : Prop :=
  s.questions = qs ∧ s.timePassed ≤ TIME_LIMIT ∧
  (if s.quizFinished then
    s.correctAnswers + s.wrongAnswers = qs.length ∧
    s.secondsUsed ≤ qs.length * TIME_LIMIT
  else
    s.activeQuestion < qs.length ∧
    (if s.selectedAnswerIndex = -1 then
      s.correctAnswers + s.wrongAnswers = s.activeQuestion ∧
      s.secondsUsed ≤ s.activeQuestion * TIME_LIMIT
    else
      s.correctAnswers + s.wrongAnswers = s.activeQuestion + 1 ∧
      s.secondsUsed ≤ (s.activeQuestion + 1) * TIME_LIMIT))

/-- Arbitrary well-formed question used as input data for concrete runs. -/
def sampleQ : Question :=
  { question := "sample", options := ["a", "b", "c", "d"], correctAnswer := "a" }

/-- State used as the concrete input of the C8 witness: an unanswered first
question of two, with the counter past the limit. -/
def timeoutState : QuizState :=
  { questions := [sampleQ, sampleQ], activeQuestion := 0,
    selectedAnswerIndex := -1, timePassed := 61, correctAnswers := 0,
    wrongAnswers := 0, secondsUsed := 0, quizFinished := false }

/-- Parse oracle returning a questions array whose single entry is not a
well-formed question, used as a concrete generation outcome. -/
def badParse : String → Option Json :=
  fun _ => some (Json.obj [("questions", Json.arr [Json.obj []])])

lemma allStrings_map_str (l : List String) :
    allStrings (l.map Json.str) = some l := by
  induction l with
  | nil => rfl
  | cons s rest ih => simp [allStrings, ih]

lemma jsonToQuestion_questionToJson (q : Question) :
    jsonToQuestion (questionToJson q) = some q := by
  simp [jsonToQuestion, questionToJson, getField, List.lookup, allStrings_map_str]

lemma jsonQuestionOK_toJson (q : Question) :
    JsonQuestionOK (questionToJson q) ↔ QuestionInvariant q := by
  simp [JsonQuestionOK, jsonToQuestion_questionToJson]

instance : DecidablePred QuestionInvariant := fun q =>
  decidable_of_iff
    (q.options.length = 4 ∧ q.options.Nodup ∧ q.options.count q.correctAnswer = 1)
    Iff.rfl

lemma fallbackQuestions_invariant :
    ∀ q ∈ fallbackQuestions, QuestionInvariant q := by
  decide

lemma quizInv_init {qs : List Question} (hqs : qs ≠ []) :
    QuizInv qs (initQuiz qs) := by
  have : 0 < qs.length := List.length_pos.mpr hqs
  simp [QuizInv, initQuiz, this]

lemma quizInv_tick {qs : List Question} {s : QuizState} (hinv : QuizInv qs s)
    (hf : s.quizFinished = false) (hq : s.questions ≠ [])
    (hsel : s.selectedAnswerIndex = -1) : QuizInv qs (tickStep s) := by
  obtain ⟨hqs, ht, hrest⟩ := hinv
  subst hqs
  rw [hf] at hrest
  simp only [Bool.false_eq_true, if_false, if_pos hsel] at hrest
  obtain ⟨hlt, htl, hsu⟩ := hrest
  have ht60 : s.timePassed ≤ 60 := ht
  have hsu60 : s.secondsUsed ≤ s.activeQuestion * 60 := hsu
  have hqe : s.questions.isEmpty = false := by
    simpa [List.isEmpty_iff] using hq
  have hnt : ¬ (60 < s.timePassed) := by omega
  by_cases h60 : 60 < s.timePassed + 1
  · by_cases hlen : s.questions.length ≤ s.activeQuestion + 1
    · simp [QuizInv, tickStep, tickPhase, timeoutCheck, handleNextQuestion,
        hf, hqe, hsel, hnt, h60, hlen, TIME_LIMIT]
      omega
    · simp [QuizInv, tickStep, tickPhase, timeoutCheck, handleNextQuestion,
        hf, hqe, hsel, hnt, h60, hlen, TIME_LIMIT]
      omega
  · simp [QuizInv, tickStep, tickPhase, timeoutCheck, handleNextQuestion,
      hf, hqe, hsel, hnt, h60, TIME_LIMIT]
    omega

lemma quizInv_select {qs : List Question} {s : QuizState} (hinv : QuizInv qs s)
    (i : Nat) (hf : s.quizFinished = false)
    (hsel : s.selectedAnswerIndex = -1)
    (hq : s.activeQuestion < s.questions.length) :
    QuizInv qs (handleSelectAnswer s i) := by
  obtain ⟨hqs, ht, hrest⟩ := hinv
  subst hqs
  rw [hf] at hrest
  simp only [Bool.false_eq_true, if_false, if_pos hsel] at hrest
  obtain ⟨hlt, htl, hsu⟩ := hrest
  have ht60 : s.timePassed ≤ 60 := ht
  have hsu60 : s.secondsUsed ≤ s.activeQuestion * 60 := hsu
  have hine : ((i : Int)) ≠ -1 := by omega
  cases hget : s.questions[s.activeQuestion]? with
  | none =>
    rw [List.getElem?_eq_none_iff] at hget
    omega
  | some q =>
    by_cases hc : q.options[i]? = some q.correctAnswer
    · simp [QuizInv, handleSelectAnswer, hget, hc, hf, hine, TIME_LIMIT]
      omega
    · simp [QuizInv, handleSelectAnswer, hget, hc, hf, hine, TIME_LIMIT]
      omega

lemma quizInv_next {qs : List Question} {s : QuizState} (hinv : QuizInv qs s)
    (hf : s.quizFinished = false) (hsel : s.selectedAnswerIndex ≠ -1) :
    QuizInv qs (handleNextQuestion s) := by
  obtain ⟨hqs, ht, hrest⟩ := hinv
  subst hqs
  rw [hf] at hrest
  simp only [Bool.false_eq_true, if_false, if_neg hsel] at hrest
  obtain ⟨hlt, htl, hsu⟩ := hrest
  have ht60 : s.timePassed ≤ 60 := ht
  have hsu60 : s.secondsUsed ≤ (s.activeQuestion + 1) * 60 := hsu
  by_cases hlen : s.questions.length ≤ s.activeQuestion + 1
  · simp [QuizInv, handleNextQuestion, hlen, TIME_LIMIT]
    omega
  · simp [QuizInv, handleNextQuestion, hlen, hf, TIME_LIMIT]
    omega

lemma quizInv_step {qs : List Question} {s t : QuizState}
    (hinv : QuizInv qs s) (hstep : QuizStep s t) : QuizInv qs t := by
  cases hstep with
  | tick hf hq hsel => exact quizInv_tick hinv hf hq hsel
  | select i hf hsel hq => exact quizInv_select hinv i hf hsel hq
  | next hf hsel => exact quizInv_next hinv hf hsel

lemma quizInv_reach {qs : List Question} {s : QuizState} (hqs : qs ≠ [])
    (hreach : Relation.ReflTransGen QuizStep (initQuiz qs) s) :
    QuizInv qs s := by
  induction hreach with
  | refl => exact quizInv_init hqs
  | tail _ hstep ih => exact quizInv_step ih hstep

lemma ticksFrom_reachable (s : QuizState) (n : Nat)
    (h : ∀ k, k < n → (ticksFrom s k).quizFinished = false ∧
      (ticksFrom s k).questions ≠ [] ∧
      (ticksFrom s k).selectedAnswerIndex = -1) :
    Relation.ReflTransGen QuizStep s (ticksFrom s n) := by
  induction n with
  | zero => exact Relation.ReflTransGen.refl
  | succ n ih =>
    obtain ⟨hf, hq, hsel⟩ := h n (by omega)
    exact Relation.ReflTransGen.tail (ih (fun k hk => h k (by omega)))
      (QuizStep.tick _ hf hq hsel)

/-- C7: for every quiz session that reaches the finished state with n
questions, the final tally satisfies correctAnswers + wrongAnswers = n, and
secondsUsed never exceeds n * TIME_LIMIT. -/
theorem quiz_tally (qs : List Question) (hqs : qs ≠ []) (s : QuizState)
    (hreach : Relation.ReflTransGen QuizStep (initQuiz qs) s)
    (hfin : s.quizFinished = true) :
    s.correctAnswers + s.wrongAnswers = qs.length ∧
    s.secondsUsed ≤ qs.length * TIME_LIMIT := by
  obtain ⟨-, -, hrest⟩ := quizInv_reach hqs hreach
  rw [hfin] at hrest
  simpa using hrest

/-- C7 witness: a one-question session, answered and advanced, finishes with
tally 1 and at most TIME_LIMIT seconds used. -/
theorem quiz_tally_witness :
    ([sampleQ] ≠ ([] : List Question)) ∧
    (handleNextQuestion (handleSelectAnswer (initQuiz [sampleQ]) 0)).quizFinished = true ∧
    (handleNextQuestion (handleSelectAnswer (initQuiz [sampleQ]) 0)).correctAnswers +
      (handleNextQuestion (handleSelectAnswer (initQuiz [sampleQ]) 0)).wrongAnswers =
      ([sampleQ] : List Question).length ∧
    (handleNextQuestion (handleSelectAnswer (initQuiz [sampleQ]) 0)).secondsUsed ≤
      ([sampleQ] : List Question).length * TIME_LIMIT := by
  have h1 : QuizStep (initQuiz [sampleQ]) (handleSelectAnswer (initQuiz [sampleQ]) 0) :=
    QuizStep.select _ 0 rfl rfl (by decide)
  have h2 : QuizStep (handleSelectAnswer (initQuiz [sampleQ]) 0)
      (handleNextQuestion (handleSelectAnswer (initQuiz [sampleQ]) 0)) :=
    QuizStep.next _ (by decide) (by decide)
  have hreach := Relation.ReflTransGen.tail
    (Relation.ReflTransGen.tail Relation.ReflTransGen.refl h1) h2
  have h := quiz_tally [sampleQ] (by decide) _ hreach (by decide)
  exact ⟨by decide, by decide, h.1, h.2⟩

/-- C8: if no option is selected when the timer passes the limit, the
question is scored wrong with TIME_LIMIT seconds charged, and the controller
advances the active index by exactly one, or finishes on the last question,
resetting the elapsed counter to 0. -/
theorem timeout_auto_advance (s : QuizState) (hf : s.quizFinished = false)
    (hq : s.questions ≠ []) (ht : s.timePassed > TIME_LIMIT)
    (hsel : s.selectedAnswerIndex = -1) :
    (timeoutCheck s).wrongAnswers = s.wrongAnswers + 1 ∧
    (timeoutCheck s).correctAnswers = s.correctAnswers ∧
    (timeoutCheck s).secondsUsed = s.secondsUsed + TIME_LIMIT ∧
    (timeoutCheck s).timePassed = 0 ∧
    (if s.questions.length ≤ s.activeQuestion + 1 then
      (timeoutCheck s).quizFinished = true ∧
      (timeoutCheck s).activeQuestion = s.activeQuestion
    else
      (timeoutCheck s).quizFinished = false ∧
      (timeoutCheck s).activeQuestion = s.activeQuestion + 1) := by
  have hqe : s.questions.isEmpty = false := by
    simpa [List.isEmpty_iff] using hq
  by_cases hlen : s.questions.length ≤ s.activeQuestion + 1 <;>
    simp [timeoutCheck, handleNextQuestion, hf, hqe, ht, hsel, hlen]

/-- C8 witness: a two-question state with an unanswered first question and
the counter past the limit is scored wrong and advances to question 1. -/
theorem timeout_auto_advance_witness :
    timeoutState.timePassed > TIME_LIMIT ∧
    (timeoutCheck timeoutState).wrongAnswers = 1 ∧
    (timeoutCheck timeoutState).secondsUsed = 60 ∧
    (timeoutCheck timeoutState).activeQuestion = 1 ∧
    (timeoutCheck timeoutState).timePassed = 0 := by
  have h := timeout_auto_advance timeoutState rfl (by decide) (by decide) rfl
  refine ⟨by decide, h.1, ?_, ?_, h.2.2.2.1⟩
  · simpa using h.2.2.1
  · have h6 := h.2.2.2.2
    rw [if_neg (by decide)] at h6
    exact h6.2

/-- C9 counterexample: after 60 ticks on a fresh question the stored counter
is exactly TIME_LIMIT, and the next interval firing stores TIME_LIMIT + 1,
which the component renders before the timeout effect resets it, so the
displayed elapsed value does exceed TIME_LIMIT. -/
theorem timer_clamp_cex :
    Relation.ReflTransGen QuizStep (initQuiz [sampleQ])
      (ticksFrom (initQuiz [sampleQ]) 60) ∧
    (ticksFrom (initQuiz [sampleQ]) 60).timePassed = TIME_LIMIT ∧
    (tickPhase (ticksFrom (initQuiz [sampleQ]) 60)).timePassed = TIME_LIMIT + 1 := by
  refine ⟨ticksFrom_reachable _ _ (by decide), by decide, by decide⟩

/-- C9 amended: the counter starts at 0, increases by 1 per tick while at or
below the limit, every settled state keeps it at most TIME_LIMIT, and the
value stored by a tick never exceeds TIME_LIMIT + 1 (rather than
TIME_LIMIT). -/
theorem timer_clamp_amended (qs : List Question) (s : QuizState) (hqs : qs ≠ [])
    (hreach : Relation.ReflTransGen QuizStep (initQuiz qs) s) :
    (initQuiz qs).timePassed = 0 ∧
    s.timePassed ≤ TIME_LIMIT ∧
    (tickPhase s).timePassed = s.timePassed + 1 ∧
    (tickPhase s).timePassed ≤ TIME_LIMIT + 1 := by
  obtain ⟨-, ht, -⟩ := quizInv_reach hqs hreach
  have ht60 : s.timePassed ≤ 60 := ht
  have hnt : ¬ (60 < s.timePassed) := by omega
  refine ⟨rfl, ht, ?_, ?_⟩
  · simp [tickPhase, TIME_LIMIT, hnt]
  · simp [tickPhase, TIME_LIMIT, hnt]
    omega

/-- C9 amended witness: the bounds instantiated at the freshly initialised
one-question session. -/
theorem timer_clamp_amended_witness :
    ([sampleQ] ≠ ([] : List Question)) ∧
    (initQuiz [sampleQ]).timePassed = 0 ∧
    (initQuiz [sampleQ]).timePassed ≤ TIME_LIMIT ∧
    (tickPhase (initQuiz [sampleQ])).timePassed = (initQuiz [sampleQ]).timePassed + 1 ∧
    (tickPhase (initQuiz [sampleQ])).timePassed ≤ TIME_LIMIT + 1 := by
  have h := timer_clamp_amended [sampleQ] (initQuiz [sampleQ]) (by decide)
    Relation.ReflTransGen.refl
  exact ⟨by decide, h.1, h.2.1, h.2.2.1, h.2.2.2⟩

lemma questionsArray_ne_nil {j : Json} {qs : List Json}
    (h : questionsArray j = some qs) : qs ≠ [] := by
  unfold questionsArray at h
  split at h
  · rename_i l hl
    by_cases he : l.isEmpty
    · rw [if_pos he] at h
      exact Option.noConfusion h
    · rw [if_neg he] at h
      cases h
      simpa [List.isEmpty_iff] using he
  · exact Option.noConfusion h

lemma geminiStage_ne_nil {parse : String → Option Json} {g : Option String}
    {qs : List Json} (h : geminiStage parse g = some qs) : qs ≠ [] := by
  cases g with
  | none => simp [geminiStage] at h
  | some content =>
    simp only [geminiStage] at h
    by_cases hce : content = ""
    · rw [if_pos hce] at h
      exact Option.noConfusion h
    · rw [if_neg hce] at h
      cases hp : parse (cleanContent content) with
      | none =>
        rw [hp] at h
        exact Option.noConfusion h
      | some j =>
        rw [hp] at h
        exact questionsArray_ne_nil h

lemma fallback_take_ne_nil {n : Nat} (hn : 1 ≤ n) :
    (fallbackQuestions.take (min n fallbackQuestions.length)).map questionToJson ≠ [] := by
  have hlen : fallbackQuestions.length = 5 := by decide
  intro hnil
  have := congrArg List.length hnil
  simp [List.length_take, hlen] at this
  omega

/-- C4: the POST handler returns status 400 with an error field and no
questions field exactly when subject or difficulty is absent or empty in the
parsed request body, and an absent numberOfQuestions defaults to 10. -/
theorem post_validation_iff (parse : String → Option Json) (gemini : Option String)
    (b : RequestBody) :
    (((GeminiRoute.POST parse gemini (some b)).status = 400 ∧
      ((GeminiRoute.POST parse gemini (some b)).error).isSome = true ∧
      (GeminiRoute.POST parse gemini (some b)).questions = none) ↔
      (isFalsy b.subject || isFalsy b.difficulty) = true) ∧
    (b.numberOfQuestions = none → requestedCount b = 10) := by
  constructor
  · by_cases hv : (isFalsy b.subject || isFalsy b.difficulty) = true
    · simp [GeminiRoute.POST, hv]
    · cases hst : geminiStage parse gemini <;>
        simp [GeminiRoute.POST, hv, hst]
  · intro h
    simp [requestedCount, h]

/-- C4 witness: the empty subject is rejected with 400, and a body without
numberOfQuestions gets count 10. -/
theorem post_validation_iff_witness :
    ((GeminiRoute.POST (fun _ => none) none
      (some { subject := some "", difficulty := some "Easy",
              numberOfQuestions := none })).status = 400 ∧
      ((GeminiRoute.POST (fun _ => none) none
        (some { subject := some "", difficulty := some "Easy",
                numberOfQuestions := none })).error).isSome = true ∧
      (GeminiRoute.POST (fun _ => none) none
        (some { subject := some "", difficulty := some "Easy",
                numberOfQuestions := none })).questions = none) ∧
    requestedCount { subject := some "", difficulty := some "Easy",
                     numberOfQuestions := none } = 10 := by
  have h := post_validation_iff (fun _ => none) none
    { subject := some "", difficulty := some "Easy", numberOfQuestions := none }
  exact ⟨h.1.mpr (by decide), h.2 rfl⟩

/-- C10: a request whose body is not parseable as JSON is not rejected with
400; it gets status 200 with the first five hard-coded fallback questions
and the error-fallback source tag. -/
theorem garbage_body_fallback (parse : String → Option Json) (gemini : Option String) :
    GeminiRoute.POST parse gemini none =
      { status := 200, error := none,
        questions := some ((fallbackQuestions.take 5).map questionToJson),
        source := some "error-fallback" } ∧
    ((fallbackQuestions.take 5).map questionToJson).length = 5 :=
  ⟨rfl, by decide⟩

/-- C1 counterexample: a request with non-empty subject and difficulty but
numberOfQuestions 0, under total generation failure, is answered with status
200 and an empty questions array, so the questions array is not always
non-empty. -/
theorem provider_nonempty_cex :
    (GeminiRoute.POST (fun _ => none) none
      (some { subject := some "Math", difficulty := some "Easy",
              numberOfQuestions := some 0 })).status = 200 ∧
    (GeminiRoute.POST (fun _ => none) none
      (some { subject := some "Math", difficulty := some "Easy",
              numberOfQuestions := some 0 })).questions = some [] :=
  ⟨rfl, rfl⟩

/-- C1 amended: for every request with non-empty subject and difficulty the
handler returns status 200 with a questions array regardless of how the
generation stage fares, and that array is non-empty whenever the requested
count is at least 1. -/
theorem provider_success_status (parse : String → Option Json) (gemini : Option String)
    (b : RequestBody) (hs : isFalsy b.subject = false)
    (hd : isFalsy b.difficulty = false) :
    (GeminiRoute.POST parse gemini (some b)).status = 200 ∧
    ∃ qs, (GeminiRoute.POST parse gemini (some b)).questions = some qs ∧
      (1 ≤ requestedCount b → qs ≠ []) := by
  cases hst : geminiStage parse gemini with
  | some qs =>
    exact ⟨by simp [GeminiRoute.POST, hs, hd, hst], qs,
      by simp [GeminiRoute.POST, hs, hd, hst],
      fun _ => geminiStage_ne_nil hst⟩
  | none =>
    exact ⟨by simp [GeminiRoute.POST, hs, hd, hst], _,
      by simp [GeminiRoute.POST, hs, hd, hst],
      fun hn => fallback_take_ne_nil hn⟩

/-- C1 amended witness: a valid two-question request under total generation
failure still gets status 200 and a non-empty list. -/
theorem provider_success_status_witness :
    isFalsy (some "Science") = false ∧
    (GeminiRoute.POST (fun _ => none) none
      (some { subject := some "Science", difficulty := some "Hard",
              numberOfQuestions := some 2 })).status = 200 ∧
    ∃ qs, (GeminiRoute.POST (fun _ => none) none
      (some { subject := some "Science", difficulty := some "Hard",
              numberOfQuestions := some 2 })).questions = some qs ∧
      (1 ≤ requestedCount { subject := some "Science", difficulty := some "Hard",
                            numberOfQuestions := some 2 } → qs ≠ []) := by
  have h := provider_success_status (fun _ => none) none
    { subject := some "Science", difficulty := some "Hard",
      numberOfQuestions := some 2 } rfl rfl
  exact ⟨rfl, h.1, h.2⟩

/-- C2 counterexample: when the generation stage succeeds, the parsed
questions are returned unvalidated with status 200; here the single returned
entry violates the Question invariant, and the requested count of 2 is not
honoured either. -/
theorem question_invariant_cex :
    (GeminiRoute.POST badParse (some "ok")
      (some { subject := some "Math", difficulty := some "Easy",
              numberOfQuestions := some 2 })).status = 200 ∧
    (GeminiRoute.POST badParse (some "ok")
      (some { subject := some "Math", difficulty := some "Easy",
              numberOfQuestions := some 2 })).questions = some [Json.obj []] ∧
    ¬ JsonQuestionOK (Json.obj []) := by
  refine ⟨rfl, rfl, ?_⟩
  simp [JsonQuestionOK, jsonToQuestion, getField]

/-- C2 amended: on the fallback path (generation stage failed) the handler
returns exactly min of the requested count and the fallback table size
questions, every one of them satisfying the Question invariant; the success
path returns the parsed questions as they are. -/
theorem fallback_path_questions (parse : String → Option Json) (gemini : Option String)
    (b : RequestBody) (hs : isFalsy b.subject = false)
    (hd : isFalsy b.difficulty = false)
    (hfail : geminiStage parse gemini = none) :
    ∃ qs, (GeminiRoute.POST parse gemini (some b)).questions = some qs ∧
      qs.length = min (requestedCount b) fallbackQuestions.length ∧
      ∀ j ∈ qs, JsonQuestionOK j := by
  refine ⟨(fallbackQuestions.take
      (min (requestedCount b) fallbackQuestions.length)).map questionToJson,
    by simp [GeminiRoute.POST, hs, hd, hfail], ?_, ?_⟩
  · simp [List.length_take]
  · intro j hj
    simp only [List.mem_map] at hj
    obtain ⟨q, hq, rfl⟩ := hj
    rw [jsonQuestionOK_toJson]
    exact fallbackQuestions_invariant q (List.mem_of_mem_take hq)

/-- C2 amended witness: the three-question fallback response for a valid
request, all entries well-formed. -/
theorem fallback_path_questions_witness :
    isFalsy (some "Math") = false ∧
    geminiStage (fun _ => none) none = none ∧
    ∃ qs, (GeminiRoute.POST (fun _ => none) none
      (some { subject := some "Math", difficulty := some "Easy",
              numberOfQuestions := some 3 })).questions = some qs ∧
      qs.length = min 3 fallbackQuestions.length ∧
      ∀ j ∈ qs, JsonQuestionOK j := by
  have h := fallback_path_questions (fun _ => none) none
    { subject := some "Math", difficulty := some "Easy",
      numberOfQuestions := some 3 } rfl rfl rfl
  exact ⟨rfl, rfl, h⟩

/-- C3: when the generation stage fails, the mock-data handler serves the
hard-coded table keyed by the requested subject, truncated to the requested
count, with status 200, and an unknown subject falls back to the General
Knowledge set. -/
theorem mock_fallback_selection (parse : String → Option Json) (gemini : Option String)
    (b : RequestBody) (hs : isFalsy b.subject = false)
    (hd : isFalsy b.difficulty = false)
    (hfail : geminiStage parse gemini = none) :
    MockRoute.POST parse gemini (some b) =
      { status := 200, error := none,
        questions := some (((MockRoute.subjectQuestions (b.subject.getD "")).take
          (requestedCount b)).map questionToJson),
        source := some "mock" } ∧
    ∀ subj, MockRoute.mockData.lookup subj = none →
      MockRoute.subjectQuestions subj =
        (MockRoute.mockData.lookup "General Knowledge").getD [] := by
  constructor
  · simp [MockRoute.POST, hs, hd, hfail]
  · intro subj hsubj
    simp [MockRoute.subjectQuestions, hsubj]

/-- C3 witness: the History Easy request for 3 questions under total
generation failure yields status 200 and exactly the first 3 questions of
the History fallback table. -/
theorem mock_fallback_selection_witness :
    isFalsy (some "History") = false ∧
    geminiStage (fun _ => none) none = none ∧
    (MockRoute.POST (fun _ => none) none
      (some { subject := some "History", difficulty := some "Easy",
              numberOfQuestions := some 3 })).status = 200 ∧
    (MockRoute.POST (fun _ => none) none
      (some { subject := some "History", difficulty := some "Easy",
              numberOfQuestions := some 3 })).questions =
      some (((MockRoute.subjectQuestions "History").take 3).map questionToJson) ∧
    ((MockRoute.subjectQuestions "History").take 3).length = 3 ∧
    ∀ q ∈ (MockRoute.subjectQuestions "History").take 3,
      q ∈ (MockRoute.mockData.lookup "History").getD [] := by
  have h := mock_fallback_selection (fun _ => none) none
    { subject := some "History", difficulty := some "Easy",
      numberOfQuestions := some 3 } rfl rfl rfl
  refine ⟨rfl, rfl, ?_, ?_, by decide, by decide⟩
  · rw [h.1]
  · rw [h.1]
    rfl

/-- C5: a generation stage fails exactly when the cleaned text fails to
parse or the parsed value lacks a non-empty questions array, and a stage
whose text fails to parse produces the same response as a stage that throws
outright. -/
theorem stage_failure_semantics (parse : String → Option Json) (content : String)
    (hc : content ≠ "") :
    (geminiStage parse (some content) = none ↔
      (parse (cleanContent content) = none ∨
        ∃ j, parse (cleanContent content) = some j ∧ questionsArray j = none)) ∧
    (parse (cleanContent content) = none →
      ∀ body, GeminiRoute.POST parse (some content) body =
        GeminiRoute.POST parse none body) := by
  constructor
  · cases hp : parse (cleanContent content) with
    | none => simp [geminiStage, hc, hp]
    | some j =>
      cases hqa : questionsArray j with
      | none => simp [geminiStage, hc, hp, hqa]
      | some qs => simp [geminiStage, hc, hp, hqa]
  · intro hp body
    have hstage : geminiStage parse (some content) = none := by
      simp [geminiStage, hc, hp]
    have hstage2 : geminiStage parse none = none := rfl
    cases body with
    | none => rfl
    | some b => simp [GeminiRoute.POST, hstage, hstage2]

/-- C5 witness: the semantics instantiated at a parse oracle that always
fails and the content x. -/
theorem stage_failure_semantics_witness :
    ("x" : String) ≠ "" ∧
    ((geminiStage (fun _ => none) (some "x") = none ↔
      ((fun _ => (none : Option Json)) (cleanContent "x") = none ∨
        ∃ j, (fun _ => (none : Option Json)) (cleanContent "x") = some j ∧
          questionsArray j = none)) ∧
    ((fun _ => (none : Option Json)) (cleanContent "x") = none →
      ∀ body, GeminiRoute.POST (fun _ => none) (some "x") body =
        GeminiRoute.POST (fun _ => none) none body)) :=
  ⟨by decide, stage_failure_semantics (fun _ => none) "x" (by decide)⟩

/-- C6 counterexample: with the primary stage throwing and count 0, the
two-stage handler answers from the fallback path with an empty questions
array, so the response body can be empty. -/
theorem dual_nonempty_cex :
    openaiStage (fun _ => none) none = none ∧
    (DualRoute.POST (fun _ => none) none none
      (some { subject := some "Math", difficulty := some "Easy",
              numberOfQuestions := some 0 })).status = 200 ∧
    (DualRoute.POST (fun _ => none) none none
      (some { subject := some "Math", difficulty := some "Easy",
              numberOfQuestions := some 0 })).questions = some [] ∧
    (DualRoute.POST (fun _ => none) none none
      (some { subject := some "Math", difficulty := some "Easy",
              numberOfQuestions := some 0 })).source = some "fallback" :=
  ⟨rfl, rfl, rfl, rfl⟩

/-- C6 amended: whenever the primary stage fails on a valid request asking
for at least one question, the response comes from the Gemini stage or the
static fallback, is never empty, has status 200, and the source tag names
the stage that actually produced it. -/
theorem dual_primary_failure (parse : String → Option Json)
    (openai gemini : Option String) (b : RequestBody)
    (hs : isFalsy b.subject = false) (hd : isFalsy b.difficulty = false)
    (hfail : openaiStage parse openai = none) (hn : 1 ≤ requestedCount b) :
    ∃ qs, (DualRoute.POST parse openai gemini (some b)).questions = some qs ∧
      qs ≠ [] ∧ (DualRoute.POST parse openai gemini (some b)).status = 200 ∧
      ((geminiStage parse gemini = some qs ∧
        (DualRoute.POST parse openai gemini (some b)).source = some "gemini") ∨
       (geminiStage parse gemini = none ∧
        (DualRoute.POST parse openai gemini (some b)).source = some "fallback")) := by
  cases hg : geminiStage parse gemini with
  | some qs =>
    exact ⟨qs, by simp [DualRoute.POST, hs, hd, hfail, hg],
      geminiStage_ne_nil hg, by simp [DualRoute.POST, hs, hd, hfail, hg],
      Or.inl ⟨rfl, by simp [DualRoute.POST, hs, hd, hfail, hg]⟩⟩
  | none =>
    exact ⟨_, by simp [DualRoute.POST, hs, hd, hfail, hg],
      fallback_take_ne_nil hn, by simp [DualRoute.POST, hs, hd, hfail, hg],
      Or.inr ⟨rfl, by simp [DualRoute.POST, hs, hd, hfail, hg]⟩⟩

/-- C6 amended witness: both stages failing on a valid two-question request
still produces a non-empty fallback response with the fallback tag. -/
theorem dual_primary_failure_witness :
    isFalsy (some "Math") = false ∧
    openaiStage (fun _ => none) none = none ∧
    1 ≤ requestedCount { subject := some "Math", difficulty := some "Easy",
                         numberOfQuestions := some 2 } ∧
    ∃ qs, (DualRoute.POST (fun _ => none) none none
      (some { subject := some "Math", difficulty := some "Easy",
              numberOfQuestions := some 2 })).questions = some qs ∧
      qs ≠ [] ∧
      (DualRoute.POST (fun _ => none) none none
        (some { subject := some "Math", difficulty := some "Easy",
                numberOfQuestions := some 2 })).status = 200 ∧
      ((geminiStage (fun _ => none) none = some qs ∧
        (DualRoute.POST (fun _ => none) none none
          (some { subject := some "Math", difficulty := some "Easy",
                  numberOfQuestions := some 2 })).source = some "gemini") ∨
       (geminiStage (fun _ => none) none = none ∧
        (DualRoute.POST (fun _ => none) none none
          (some { subject := some "Math", difficulty := some "Easy",
                  numberOfQuestions := some 2 })).source = some "fallback")) := by
  have h := dual_primary_failure (fun _ => none) none none
    { subject := some "Math", difficulty := some "Easy",
      numberOfQuestions := some 2 } rfl rfl rfl (by decide)
  exact ⟨rfl, rfl, by decide, h⟩
